import Mathlib

/-!
# Verification of the iot-temp-track ESP32 firmware

Shallow embedding of `src/firmware/src/main.cpp` (plus the constants of
`src/firmware/include/config.h`).  The sketch is a single-threaded control
loop that talks to a broker through a JSON-over-WebSocket shim mimicking
MQTT (connect/connack, subscribe/suback, publish/puback).

Modelling conventions:
* Machine floats (`float` readings from the DHT22) are modelled as `ℚ`;
  a NaN reading is modelled as `none` in an `Option ℚ`.
* Global mutable state (`isConnectedToMQTT`, `clientId`, `lastMsg`,
  `lastReconnectAttempt`) becomes the explicit record `DeviceState`.
* Environment reads (`millis()`, `WiFi.RSSI()`, `ESP.getFreeHeap()`, the
  two DHT readings) are fields of an `Env` record passed in.
* Every side effect (WebSocket send, Serial log line, `ESP.restart()`)
  is recorded in an output list of `Emit` values; log strings abbreviate
  the printf formatting of the source but keep the identifying words.
* `random(1, 1000)` produces write-only message ids (the firmware never
  reads them back); the model numbers successive draws with a counter
  `randCounter`, so a message id is the index of its draw.
-/

namespace Firmware

/-- An outbound JSON envelope sent over the WebSocket
(`connectToMQTTBroker`, `mqttSubscribe`, `mqttPublish`). -/
inductive Envelope where
  | connect (clientId : String) (keepAlive : Nat) (cleanSession : Bool)
  | subscribe (topic : String) (qos : Nat) (messageId : Nat)
  | publish (topic : String) (payload : String) (qos : Nat) (retain : Bool) (messageId : Nat)
deriving DecidableEq, Repr

/-- One observable side effect of the firmware: a WebSocket send, a
Serial log line, or a device restart (`ESP.restart()`). -/
inductive Emit where
  | send (e : Envelope)
  | log (line : String)
  | restart
deriving DecidableEq, Repr

/-- The global mutable variables of `main.cpp` (lines 29-34).
`interval` and `reconnectInterval` are `const` and modelled as plain
definitions below.  `randCounter` models the draw index of the
`random(1, 1000)` pseudo-random generator. -/
structure DeviceState where
  isConnectedToMQTT : Bool
  clientId : String
  lastMsg : Nat
  lastReconnectAttempt : Nat
  randCounter : Nat
deriving DecidableEq, Repr

/-- Values the firmware reads from the hardware/runtime during one call:
clock, signal strength, free heap and the two DHT22 readings
(`none` models an `isnan` reading). -/
structure Env where
  millis : Nat
  wifiRssi : Int
  heapFree : Nat
  humidity : Option ℚ
  temperature : Option ℚ
deriving DecidableEq, Repr

/-- `const long interval = 5000;` (main.cpp line 32): the publish interval
used by `loop`.  There is no code path that writes it. -/
def interval : Nat := 5000

/-- `const long reconnectInterval = 30000;` (main.cpp line 33). -/
def reconnectInterval : Nat := 30000

/-- The WebSocket envelopes among an output list, in send order. -/
def sends (out : List Emit) : List Envelope :=
  out.filterMap fun e => match e with | .send v => some v | _ => none

/-- The Serial log lines among an output list, in order. -/
def logLines (out : List Emit) : List String :=
  out.filterMap fun e => match e with | .log l => some l | _ => none

/-- Whether an output list contains a device restart. -/
def restartRequested (out : List Emit) : Bool :=
  out.any fun e => match e with | .restart => true | _ => false

/-! ## Decimal formatting

`String(float)` on Arduino prints with two decimal places, and
ArduinoJson serializes the one-decimal rounded readings; both are
modelled over `ℚ` with the decimal-digit machinery below. -/

/-- The character of a decimal digit (`0 ≤ d ≤ 9` ↦ `'0'`..`'9'`). -/
def digitChar (d : Nat) : Char := Char.ofNat (48 + d)

/-- Base-ten digits of `n`, least significant first, computed with
explicit fuel so that the kernel can evaluate it; agrees with
`Nat.digits 10` (see `digitsFuel_eq_digits`). -/
def digitsFuel : Nat → Nat → List Nat
  | 0, _ => []
  | fuel + 1, n => if n = 0 then [] else n % 10 :: digitsFuel fuel (n / 10)

/-- Base-ten digits of `n`, least significant first. -/
def natDigits (n : Nat) : List Nat := digitsFuel n n

/-- Decimal digit characters of a natural number, most significant first
(`"0"` for zero), as a C integer printer produces them. -/
def natStrChars (n : Nat) : List Char :=
  if n = 0 then [Char.ofNat 48] else ((natDigits n).map digitChar).reverse

/-- Decimal digit characters of an integer (`%ld`, JSON integer). -/
def intStrChars (k : Int) : List Char :=
  (if k < 0 then [Char.ofNat 45] else []) ++ natStrChars k.natAbs

/-- C `round()`: round half away from zero, as used in
`round(temperature * 10.0) / 10.0` (main.cpp line 389). -/
def cround (x : ℚ) : Int :=
  if 0 ≤ x then ⌊x + 1/2⌋ else -⌊-x + 1/2⌋

/-- `round(x * 10.0) / 10.0`: round to one decimal place. -/
def round1 (x : ℚ) : ℚ := (cround (x * 10) : ℚ) / 10

/-- Arduino `String(float)`: fixed two decimal places (`dtostrf`-style,
rounding to the nearest hundredth), used for the alert strings and the
`temperature/…`, `humidity/…` payloads. -/
def fmt2 (q : ℚ) : String :=
  let c := cround (q * 100)
  let a := c.natAbs
  String.mk ((if c < 0 then [Char.ofNat 45] else []) ++
    natStrChars (a / 100) ++ [Char.ofNat 46] ++ [digitChar (a / 10 % 10), digitChar (a % 10)])

/-- Digit characters of a multiple of one tenth, given as its numerator
over ten: ArduinoJson prints the fractional digit only when it is
non-zero (`23.5` ↦ `"23.5"`, `45.0` ↦ `"45"`). -/
def fmtTenthChars (k : Int) : List Char :=
  let a := k.natAbs
  (if k < 0 then [Char.ofNat 45] else []) ++
    (if a % 10 = 0 then natStrChars (a / 10)
     else natStrChars (a / 10) ++ [Char.ofNat 46] ++ [digitChar (a % 10)])

/-- ArduinoJson serialization of a one-decimal-rounded reading.  The
firmware only ever serializes values of the form `round1 x`, whose
numerator over ten is `(q * 10).num`. -/
def fmtQ (q : ℚ) : String := String.mk (fmtTenthChars (q * 10).num)

/-- The JSON record built in `readAndPublishSensorData`
(main.cpp lines 386-399), fields in insertion order; `t`/`h` are the
already-rounded values stored into the document. -/
def serializeSensorData (cid : String) (t h : ℚ) (ts : Nat) (rssi : Int) (heap : Nat) : String :=
  "\x7b\"sensorId\":\"" ++ cid ++ "\",\"temperature\":" ++ fmtQ t ++
    ",\"humidity\":" ++ fmtQ h ++
    ",\"unit_temp\":\"celsius\",\"unit_humidity\":\"percent\",\"timestamp\":" ++
    String.mk (natStrChars ts) ++ ",\"wifi_rssi\":" ++ String.mk (intStrChars rssi) ++
    ",\"heap_free\":" ++ String.mk (natStrChars heap) ++ "\x7d"

/-- The JSON record built in `publishStatus` (main.cpp lines 453-463). -/
def serializeStatus (cid status : String) (env : Env) : String :=
  "\x7b\"sensorId\":\"" ++ cid ++ "\",\"status\":\"" ++ status ++ "\",\"uptime\":" ++
    String.mk (natStrChars (env.millis / 1000)) ++ ",\"wifi_rssi\":" ++
    String.mk (intStrChars env.wifiRssi) ++ ",\"heap_free\":" ++
    String.mk (natStrChars env.heapFree) ++ ",\"timestamp\":" ++
    String.mk (natStrChars (env.millis / 1000)) ++ "\x7d"

/-! ## The MQTT-over-WebSocket shim -/

/-- `mqttSubscribe` (main.cpp lines 314-331): refuse when the session is
not established, otherwise send a `subscribe` envelope with a fresh
random message id. -/
def mqttSubscribe (s : DeviceState) (topic : String) : DeviceState × List Emit :=
  if !s.isConnectedToMQTT then
    (s, [.log "❌ No conectado a MQTT, no se puede suscribir"])
  else
    ({ s with randCounter := s.randCounter + 1 },
     [.send (.subscribe topic 0 s.randCounter), .log ("📤 Suscripción: " ++ topic)])

/-- `mqttPublish` (main.cpp lines 336-355): refuse when the session is
not established, otherwise send a `publish` envelope with a fresh
random message id. -/
def mqttPublish (s : DeviceState) (topic payload : String) (retain : Bool) : DeviceState × List Emit :=
  if !s.isConnectedToMQTT then
    (s, [.log "❌ No conectado a MQTT, no se puede publicar"])
  else
    ({ s with randCounter := s.randCounter + 1 },
     [.send (.publish topic payload 0 retain s.randCounter),
      .log ("📤 Publicado en " ++ topic ++ ": " ++ payload)])

/-- `publishStatus` (main.cpp lines 453-467). -/
def publishStatus (env : Env) (s : DeviceState) (status : String) (retain : Bool) :
    DeviceState × List Emit :=
  let statusStr := serializeStatus s.clientId status env
  let r := mqttPublish s ("status/" ++ s.clientId) statusStr retain
  (r.1, r.2 ++ [.log ("📡 Estado publicado: " ++ status)])

/-- `connectToMQTTBroker` (main.cpp lines 293-309): sends the `connect`
envelope unconditionally (no connected-flag guard). -/
def connectToMQTTBroker (s : DeviceState) : DeviceState × List Emit :=
  (s, [.log "Enviando mensaje de conexión MQTT...",
       .send (.connect s.clientId 60 true),
       .log "📤 Enviado"])

/-- The alert string built in `checkThresholds` (main.cpp lines 424-440):
sequential accumulation, temperature clause first, humidity clause
joined with a separator when both fire. -/
def alertMessageOf (temperature humidity : ℚ) : String :=
  let alertMessage : String := ""
  let alertMessage :=
    if temperature > 30 then "Temperatura alta: " ++ fmt2 temperature ++ "°C"
    else if temperature < 10 then "Temperatura baja: " ++ fmt2 temperature ++ "°C"
    else alertMessage
  let alertMessage :=
    if humidity > 80 then
      (if alertMessage.length > 0 then alertMessage ++ " | " else alertMessage) ++
        ("Humedad alta: " ++ fmt2 humidity ++ "%")
    else if humidity < 30 then
      (if alertMessage.length > 0 then alertMessage ++ " | " else alertMessage) ++
        ("Humedad baja: " ++ fmt2 humidity ++ "%")
    else alertMessage
  alertMessage

/-- `checkThresholds` (main.cpp lines 417-448): thresholds
`TEMP_MAX = 30`, `TEMP_MIN = 10`, `HUMIDITY_MAX = 80`,
`HUMIDITY_MIN = 30`; on any breach publish the alert string on the
per-device topic and on the shared topic. -/
def checkThresholds (temperature humidity : ℚ) (s : DeviceState) : DeviceState × List Emit :=
  let alertMessage := alertMessageOf temperature humidity
  if alertMessage.length > 0 then
    let r1 := mqttPublish s ("alerts/" ++ s.clientId) alertMessage false
    let r2 := mqttPublish r1.1 "alerts/temperature" alertMessage false
    (r2.1, [.log ("🚨 ALERTA: " ++ alertMessage)] ++ r1.2 ++ r2.2)
  else (s, [])

/-- `readAndPublishSensorData` (main.cpp lines 369-412): on a NaN
reading publish only an alert; otherwise publish the raw readings on
the two scalar topics, the rounded JSON record on `sensors/<id>`, and
run the threshold check. -/
def readAndPublishSensorData (env : Env) (s : DeviceState) : DeviceState × List Emit :=
  let head := Emit.log "📊 Leyendo sensores..."
  match env.humidity, env.temperature with
  | some humidity, some temperature =>
    let jsonString := serializeSensorData s.clientId (round1 temperature) (round1 humidity)
      (env.millis / 1000) env.wifiRssi env.heapFree
    let r1 := mqttPublish s ("temperature/" ++ s.clientId) (fmt2 temperature) false
    let r2 := mqttPublish r1.1 ("humidity/" ++ s.clientId) (fmt2 humidity) false
    let r3 := mqttPublish r2.1 ("sensors/" ++ s.clientId) jsonString false
    let r4 := checkThresholds temperature humidity r3.1
    (r4.1, [head] ++ r1.2 ++ r2.2 ++ r3.2 ++
      [.log ("🌡️ Temperatura: " ++ fmt2 temperature),
       .log ("💧 Humedad: " ++ fmt2 humidity)] ++ r4.2)
  | _, _ =>
    let r1 := mqttPublish s ("alerts/" ++ s.clientId) "Error de lectura del sensor DHT22" false
    (r1.1, [head, .log "❌ Error leyendo sensor DHT22!"] ++ r1.2)

/-! ## Inbound messages -/

/-- The payload string carried by a `message` envelope, as
`handleControlMessage` sees it after its own `deserializeJson`
(main.cpp lines 476-484): either bytes that fail the parse, or a parsed
command with `cmdDoc["command"]` and `cmdDoc["value"]` (zero when
absent).  `raw` is the original text, used only for logging. -/
inductive ControlPayload where
  | invalid (raw : String)
  | parsed (command : String) (value : Int) (raw : String)
deriving DecidableEq, Repr

/-- The original text of a control payload. -/
def ControlPayload.raw : ControlPayload → String
  | .invalid r => r
  | .parsed _ _ r => r

/-- The fields `webSocketEvent` reads from a successfully parsed inbound
frame (main.cpp lines 203-252).  A field reads as its type's default
when absent, matching ArduinoJson variant casts. -/
structure JsonDoc where
  type : String
  returnCode : Int
  clientId : String
  sessionPresent : Bool
  topic : String
  payload : ControlPayload
  messageId : Int
deriving DecidableEq, Repr

/-- An inbound WebSocket text frame: either bytes `deserializeJson`
rejects, or a parsed document. -/
inductive Inbound where
  | invalid (raw : String)
  | valid (doc : JsonDoc)
deriving DecidableEq, Repr

/-- `handleControlMessage` (main.cpp lines 472-507). -/
def handleControlMessage (env : Env) (s : DeviceState) (p : ControlPayload) :
    DeviceState × List Emit :=
  let head := Emit.log ("🎛️ Comando recibido: " ++ p.raw)
  match p with
  | .invalid _ => (s, [head, .log "❌ Error parseando comando"])
  | .parsed command v _ =>
    if command = "restart" then
      let r1 := publishStatus env s "restarting" true
      (r1.1, [head, .log "🔄 Reiniciando ESP32..."] ++ r1.2 ++ [.restart])
    else if command = "status" then
      let r1 := publishStatus env s "online" false
      let r2 := readAndPublishSensorData env r1.1
      (r2.1, [head] ++ r1.2 ++ r2.2)
    else if command = "set_interval" then
      if 1000 ≤ v ∧ v ≤ 300000 then
        (s, [head, .log ("ℹ️ Intervalo solicitado: " ++ String.mk (intStrChars v) ++
          " ms (requiere reinicio)")])
      else (s, [head])
    else (s, [head, .log ("❌ Comando desconocido: " ++ command)])

/-- The `WStype_TEXT` arm of `webSocketEvent` (main.cpp lines 189-254):
parse, then dispatch on `doc["type"]`; a parse failure is logged and
dropped; an unrecognized type falls through silently. -/
def webSocketText (env : Env) (s : DeviceState) (m : Inbound) : DeviceState × List Emit :=
  let head := Emit.log "📥 Recibido"
  match m with
  | .invalid _ => (s, [head, .log "❌ Error parseando JSON"])
  | .valid doc =>
    if doc.type = "connack" then
      if doc.returnCode = 0 then
        let s1 := { s with isConnectedToMQTT := true, clientId := doc.clientId }
        let r2 := mqttSubscribe s1 ("control/" ++ s1.clientId)
        let r3 := mqttSubscribe r2.1 "control/all"
        let r4 := publishStatus env r3.1 "online" true
        (r4.1, [head, .log ("✅ Conectado a MQTT con clientId: " ++ doc.clientId)] ++
          r2.2 ++ r3.2 ++ r4.2)
      else (s, [head, .log "❌ Error en conexión MQTT"])
    else if doc.type = "suback" then
      (s, [head, .log ("✓ Suscrito a: " ++ doc.topic)])
    else if doc.type = "message" then
      let msgLog := Emit.log ("📨 Mensaje en " ++ doc.topic ++ ": " ++ doc.payload.raw)
      if doc.topic.startsWith "control/" then
        let r1 := handleControlMessage env s doc.payload
        (r1.1, [head, msgLog] ++ r1.2)
      else (s, [head, msgLog])
    else if doc.type = "puback" then
      (s, [head, .log "✓ Mensaje publicado confirmado"])
    else if doc.type = "pingresp" then
      (s, [head, .log "🏓 Pong recibido"])
    else (s, [head])

/-- A WebSocket event as delivered to `webSocketEvent`. -/
inductive WSEvent where
  | disconnected
  | connected (url : String)
  | text (m : Inbound)
  | bin (len : Nat)
  | err (msg : String)
  | fragment
  | ping
  | pong
deriving DecidableEq, Repr

/-- `webSocketEvent` (main.cpp lines 166-288). -/
def webSocketEvent (env : Env) (s : DeviceState) (ev : WSEvent) : DeviceState × List Emit :=
  match ev with
  | .disconnected =>
    ({ s with isConnectedToMQTT := false }, [.log "🔌 WebSocket desconectado"])
  | .connected _ =>
    let r := connectToMQTTBroker s
    (r.1, [.log "🔗 WebSocket conectado exitosamente"] ++ r.2)
  | .text m => webSocketText env s m
  | .bin _ => (s, [.log "📦 Datos binarios recibidos"])
  | .err _ =>
    ({ s with isConnectedToMQTT := false }, [.log "❌ Error WebSocket"])
  | .fragment => (s, [.log "📄 Fragmento de mensaje recibido"])
  | .ping => (s, [.log "🏓 Ping recibido del servidor"])
  | .pong => (s, [.log "🏓 Pong recibido del servidor"])

/-- One pass of `loop` (main.cpp lines 526-564) after the library call
`webSocket.loop()`: WiFi check, MQTT reconnect timer, interval-gated
sensor publish.  `wifiConnected` models `WiFi.status() == WL_CONNECTED`. -/
def loopStep (env : Env) (wifiConnected : Bool) (s : DeviceState) : DeviceState × List Emit :=
  if !wifiConnected then
    ({ s with isConnectedToMQTT := false }, [.log "❌ WiFi desconectado, reconectando..."])
  else if !s.isConnectedToMQTT then
    if env.millis - s.lastReconnectAttempt > reconnectInterval then
      ({ s with lastReconnectAttempt := env.millis },
       [.log "🔄 Intentando reconectar WebSocket/MQTT..."])
    else (s, [])
  else if env.millis - s.lastMsg > interval then
    readAndPublishSensorData env { s with lastMsg := env.millis }
  else (s, [])

/-- The character of a hex digit as `%02X` prints it
(`0`..`9` then uppercase `A`..`F`). -/
def hexDigitChar (d : Nat) : Char :=
  if d < 10 then Char.ofNat (48 + d) else Char.ofNat (55 + d)

/-- The two characters `%02X` prints for one MAC byte. -/
def byteHexChars (b : Nat) : List Char :=
  [hexDigitChar (b / 16 % 16), hexDigitChar (b % 16)]

/-- `generateClientId` (main.cpp lines 512-521): `"esp32-"` followed by
the six MAC bytes, each as two uppercase hex digits.  The MAC is the
fixed hardware address, so within one boot session every call receives
the same `mac` and returns the same string. -/
def generateClientId (mac : Fin 6 → Fin 256) : String :=
  "esp32-" ++ String.mk ((List.ofFn fun i : Fin 6 => byteHexChars (mac i)).flatten)

/-- `hay` contains `sub` as a contiguous substring. -/
def strHasSub (hay sub : String) : Prop := ∃ p q, hay = p ++ (sub ++ q)

/-- A decimal digit or one of the uppercase letters `A`..`F`. -/
def isUpperHexDigit (c : Char) : Bool :=
  c.isDigit || (65 ≤ c.toNat && c.toNat ≤ 70)

/-! ## A reader for the published sensor record

Models what a consumer does with the payload published on
`sensors/<clientId>`: run a JSON parse and read back the `temperature`
and `humidity` fields.  The reader walks the record sequentially in the
field order `serializeSensorData` emits. -/

/-- Consume an expected literal from the front of the character stream. -/
def dropLit : List Char → List Char → Option (List Char)
  | [], cs => some cs
  | _ :: _, [] => none
  | l :: ls, c :: cs => if l = c then dropLit ls cs else none

/-- Take characters up to (and consuming) the first occurrence of
`stop`. -/
def takeUntil (stop : Char) : List Char → Option (List Char × List Char)
  | [] => none
  | c :: cs =>
    if c = stop then some ([], cs)
    else (takeUntil stop cs).map fun p => (c :: p.1, p.2)

/-- Leading run of decimal digits, and the rest. -/
def takeDigits : List Char → List Char × List Char
  | [] => ([], [])
  | c :: cs =>
    if c.isDigit then
      let p := takeDigits cs
      (c :: p.1, p.2)
    else ([], c :: cs)

/-- Numeric value of a big-endian run of decimal digit characters. -/
def digitsVal (cs : List Char) : Nat :=
  cs.foldl (fun a c => a * 10 + (c.toNat - 48)) 0

/-- Parse an unsigned JSON number with an optional fractional part. -/
def parseUnsigned (cs : List Char) : Option ℚ :=
  let p := takeDigits cs
  if p.1 = [] then none
  else
    match p.2 with
    | [] => some (digitsVal p.1 : ℚ)
    | c :: fracPart =>
      if c = Char.ofNat 46 then
        if fracPart ≠ [] ∧ fracPart.all Char.isDigit then
          some ((digitsVal p.1 : ℚ) + (digitsVal fracPart : ℚ) / 10 ^ fracPart.length)
        else none
      else none

/-- Parse a JSON number, possibly negative. -/
def parseNumber (cs : List Char) : Option ℚ :=
  match cs with
  | c :: rest =>
    if c = Char.ofNat 45 then (parseUnsigned rest).map Neg.neg else parseUnsigned cs
  | [] => none

/-- Deserialize the payload published on `sensors/<clientId>` and read
back the `temperature` and `humidity` fields. -/
def parsePayloadTempHum (s : String) : Option (ℚ × ℚ) := do
  let cs ← dropLit "\x7b\"sensorId\":\"".data s.data
  let p1 ← takeUntil (Char.ofNat 34) cs
  let cs ← dropLit ",\"temperature\":".data p1.2
  let p2 ← takeUntil (Char.ofNat 44) cs
  let t ← parseNumber p2.1
  let cs ← dropLit "\"humidity\":".data p2.2
  let p3 ← takeUntil (Char.ofNat 44) cs
  let h ← parseNumber p3.1
  pure (t, h)

/-! ## Concrete sample inputs (used by witnesses and counterexamples) -/

/-- A sample environment: valid readings 25 °C and 50 %. -/
def sampleEnv : Env := ⟨12000, -55, 7, some 50, some 25⟩

/-- A sample environment whose humidity reading is NaN. -/
def sampleNaNEnv : Env := ⟨12000, -55, 7, none, some 25⟩

/-- The state right after `setup`: not connected, boot-generated id. -/
def sampleBoot : DeviceState := ⟨false, "esp32-AABBCCDDEEFF", 0, 0, 0⟩

/-- A state with an established MQTT session. -/
def sampleSession : DeviceState := ⟨true, "dev-1", 0, 0, 0⟩

/-- A well-formed `connack` with return code 0 and a server-assigned
client id. -/
def sampleConnack : JsonDoc := ⟨"connack", 0, "srv-42", false, "", .invalid "", 0⟩

/-- A sample MAC address, bytes AA BB 0C 5D EE 1F. -/
def sampleMac : Fin 6 → Fin 256 := fun i =>
  if i = 0 then 170 else if i = 1 then 187 else if i = 2 then 12
  else if i = 3 then 93 else if i = 4 then 238 else 31

/-! ## Helper lemmas -/

theorem digitsFuel_eq_digits (fuel n : Nat) (h : n ≤ fuel) :
    digitsFuel fuel n = Nat.digits 10 n := by
  induction fuel generalizing n with
  | zero =>
    interval_cases n
    simp [digitsFuel]
  | succ fuel ih =>
    by_cases h0 : n = 0
    · simp [digitsFuel, h0]
    · rw [digitsFuel, if_neg h0, Nat.digits_def' (by norm_num : 1 < 10) (Nat.pos_of_ne_zero h0),
        ih (n / 10) ?_]
      have := Nat.div_lt_self (Nat.pos_of_ne_zero h0) (by norm_num : 1 < 10)
      omega

theorem natDigits_eq_digits (n : Nat) : natDigits n = Nat.digits 10 n :=
  digitsFuel_eq_digits n n le_rfl

theorem mqttPublish_clientId (s : DeviceState) (topic payload : String) (retain : Bool) :
    (mqttPublish s topic payload retain).1.clientId = s.clientId := by
  unfold mqttPublish
  by_cases h : s.isConnectedToMQTT <;> simp [h]

theorem mqttSubscribe_clientId (s : DeviceState) (topic : String) :
    (mqttSubscribe s topic).1.clientId = s.clientId := by
  unfold mqttSubscribe
  by_cases h : s.isConnectedToMQTT <;> simp [h]

theorem publishStatus_clientId (env : Env) (s : DeviceState) (status : String) (retain : Bool) :
    (publishStatus env s status retain).1.clientId = s.clientId := by
  unfold publishStatus
  simp [mqttPublish_clientId]

theorem checkThresholds_clientId (t h : ℚ) (s : DeviceState) :
    (checkThresholds t h s).1.clientId = s.clientId := by
  unfold checkThresholds
  dsimp only
  by_cases hl : (alertMessageOf t h).length > 0
  · rw [if_pos hl]
    rw [mqttPublish_clientId, mqttPublish_clientId]
  · rw [if_neg hl]

theorem readAndPublishSensorData_clientId (env : Env) (s : DeviceState) :
    (readAndPublishSensorData env s).1.clientId = s.clientId := by
  unfold readAndPublishSensorData
  cases env.humidity with
  | none => cases env.temperature <;> simp [mqttPublish_clientId]
  | some hum =>
    cases env.temperature with
    | none => simp [mqttPublish_clientId]
    | some temp =>
      dsimp only
      rw [checkThresholds_clientId, mqttPublish_clientId, mqttPublish_clientId,
        mqttPublish_clientId]

theorem handleControlMessage_clientId (env : Env) (s : DeviceState) (p : ControlPayload) :
    (handleControlMessage env s p).1.clientId = s.clientId := by
  unfold handleControlMessage
  cases p with
  | invalid raw => simp
  | parsed command v raw =>
    by_cases h1 : command = "restart"
    · simp [h1, publishStatus_clientId]
    · by_cases h2 : command = "status"
      · simp [h1, h2]
        rw [readAndPublishSensorData_clientId, publishStatus_clientId]
      · by_cases h3 : command = "set_interval"
        · by_cases h4 : 1000 ≤ v ∧ v ≤ 300000 <;> simp [h1, h2, h3, h4]
        · simp [h1, h2, h3]

theorem strHasSub_append_left (p s sub : String) (h : strHasSub s sub) :
    strHasSub (p ++ s) sub := by
  obtain ⟨a, b, hab⟩ := h
  exact ⟨p ++ a, b, by rw [hab, String.append_assoc]⟩

theorem strHasSub_of_split (lit sub tail rest : String) (hsplit : lit = sub ++ tail) :
    strHasSub (lit ++ rest) sub :=
  ⟨"", tail ++ rest, by rw [hsplit, String.empty_append, String.append_assoc]⟩

theorem strHasSub_len_pos (hay sub : String) (h : strHasSub hay sub) (hs : 0 < sub.length) :
    0 < hay.length := by
  obtain ⟨a, b, hab⟩ := h
  rw [hab, String.length_append, String.length_append]
  omega

theorem len_pos_head (a b : String) (ha : 0 < a.length) : 0 < (a ++ b).length := by
  rw [String.length_append]; omega

theorem alertMessageOf_inside (t h : ℚ) (h1 : 10 < t) (h2 : t < 30) (h3 : 30 < h)
    (h4 : h < 80) : alertMessageOf t h = "" := by
  unfold alertMessageOf
  dsimp only
  rw [if_neg (lt_asymm h2), if_neg (lt_asymm h1), if_neg (lt_asymm h4), if_neg (lt_asymm h3)]

theorem tempHigh_hasSub (t h : ℚ) (h1 : 30 < t) :
    strHasSub (alertMessageOf t h) "Temperatura alta" := by
  unfold alertMessageOf
  dsimp only
  rw [if_pos h1]
  have hTlen : ("Temperatura alta: " ++ fmt2 t ++ "°C").length > 0 :=
    len_pos_head _ _ (len_pos_head _ _ (by decide))
  by_cases h3 : h > 80
  · rw [if_pos h3, if_pos hTlen]
    simp only [String.append_assoc, String.empty_append]
    repeat
      first
        | exact strHasSub_of_split _ _ ": " _ (by decide)
        | apply strHasSub_append_left
  · rw [if_neg h3]
    by_cases h4 : h < 30
    · rw [if_pos h4, if_pos hTlen]
      simp only [String.append_assoc, String.empty_append]
      repeat
        first
          | exact strHasSub_of_split _ _ ": " _ (by decide)
          | apply strHasSub_append_left
    · rw [if_neg h4]
      simp only [String.append_assoc, String.empty_append]
      exact strHasSub_of_split _ _ ": " _ (by decide)

theorem tempLow_hasSub (t h : ℚ) (h1 : t < 10) :
    strHasSub (alertMessageOf t h) "Temperatura baja" := by
  unfold alertMessageOf
  dsimp only
  have hnt : ¬ t > 30 := fun hx => absurd (lt_trans hx h1) (by norm_num)
  rw [if_neg hnt, if_pos h1]
  have hTlen : ("Temperatura baja: " ++ fmt2 t ++ "°C").length > 0 :=
    len_pos_head _ _ (len_pos_head _ _ (by decide))
  by_cases h3 : h > 80
  · rw [if_pos h3, if_pos hTlen]
    simp only [String.append_assoc, String.empty_append]
    repeat
      first
        | exact strHasSub_of_split _ _ ": " _ (by decide)
        | apply strHasSub_append_left
  · rw [if_neg h3]
    by_cases h4 : h < 30
    · rw [if_pos h4, if_pos hTlen]
      simp only [String.append_assoc, String.empty_append]
      repeat
        first
          | exact strHasSub_of_split _ _ ": " _ (by decide)
          | apply strHasSub_append_left
    · rw [if_neg h4]
      simp only [String.append_assoc, String.empty_append]
      exact strHasSub_of_split _ _ ": " _ (by decide)

theorem humHigh_hasSub (t h : ℚ) (h3 : 80 < h) :
    strHasSub (alertMessageOf t h) "Humedad alta" := by
  unfold alertMessageOf
  dsimp only
  rw [if_pos h3]
  by_cases h1 : t > 30
  · rw [if_pos h1,
      if_pos (len_pos_head _ _ (len_pos_head _ _ (by decide)) :
        ("Temperatura alta: " ++ fmt2 t ++ "°C").length > 0)]
    simp only [String.append_assoc, String.empty_append]
    repeat
      first
        | exact strHasSub_of_split _ _ ": " _ (by decide)
        | apply strHasSub_append_left
  · rw [if_neg h1]
    by_cases h2 : t < 10
    · rw [if_pos h2,
        if_pos (len_pos_head _ _ (len_pos_head _ _ (by decide)) :
          ("Temperatura baja: " ++ fmt2 t ++ "°C").length > 0)]
      simp only [String.append_assoc, String.empty_append]
      repeat
        first
          | exact strHasSub_of_split _ _ ": " _ (by decide)
          | apply strHasSub_append_left
    · rw [if_neg h2, if_neg (by decide : ¬ ("" : String).length > 0)]
      simp only [String.append_assoc, String.empty_append]
      exact strHasSub_of_split _ _ ": " _ (by decide)

theorem humLow_hasSub (t h : ℚ) (h3 : h < 30) :
    strHasSub (alertMessageOf t h) "Humedad baja" := by
  unfold alertMessageOf
  dsimp only
  have hnh : ¬ h > 80 := fun hx => absurd (lt_trans hx h3) (by norm_num)
  rw [if_neg hnh, if_pos h3]
  by_cases h1 : t > 30
  · rw [if_pos h1,
      if_pos (len_pos_head _ _ (len_pos_head _ _ (by decide)) :
        ("Temperatura alta: " ++ fmt2 t ++ "°C").length > 0)]
    simp only [String.append_assoc, String.empty_append]
    repeat
      first
        | exact strHasSub_of_split _ _ ": " _ (by decide)
        | apply strHasSub_append_left
  · rw [if_neg h1]
    by_cases h2 : t < 10
    · rw [if_pos h2,
        if_pos (len_pos_head _ _ (len_pos_head _ _ (by decide)) :
          ("Temperatura baja: " ++ fmt2 t ++ "°C").length > 0)]
      simp only [String.append_assoc, String.empty_append]
      repeat
        first
          | exact strHasSub_of_split _ _ ": " _ (by decide)
          | apply strHasSub_append_left
    · rw [if_neg h2, if_neg (by decide : ¬ ("" : String).length > 0)]
      simp only [String.append_assoc, String.empty_append]
      exact strHasSub_of_split _ _ ": " _ (by decide)

theorem alertMessageOf_len_pos (t h : ℚ) (hb : 30 < t ∨ t < 10 ∨ 80 < h ∨ h < 30) :
    0 < (alertMessageOf t h).length := by
  rcases hb with hx | hx | hx | hx
  · exact strHasSub_len_pos _ _ (tempHigh_hasSub t h hx) (by decide)
  · exact strHasSub_len_pos _ _ (tempLow_hasSub t h hx) (by decide)
  · exact strHasSub_len_pos _ _ (humHigh_hasSub t h hx) (by decide)
  · exact strHasSub_len_pos _ _ (humLow_hasSub t h hx) (by decide)

/-! ## Claims -/

/-- C1: a well-formed `connack` envelope with return code 0 sets
`isConnectedToMQTT`, and the frames sent while handling it are exactly
two subscribe envelopes — `control/<clientId>` then `control/all` —
followed by one publish (the retained `online` status): two subscribes
before any publish. -/
theorem connack_ok_establishes_and_subscribes_before_publish
    (env : Env) (s : DeviceState) (doc : JsonDoc)
    (htype : doc.type = "connack") (hrc : doc.returnCode = 0) :
    (webSocketText env s (.valid doc)).1.isConnectedToMQTT = true ∧
    sends (webSocketText env s (.valid doc)).2 =
      [Envelope.subscribe ("control/" ++ doc.clientId) 0 s.randCounter,
       Envelope.subscribe "control/all" 0 (s.randCounter + 1),
       Envelope.publish ("status/" ++ doc.clientId)
         (serializeStatus doc.clientId "online" env) 0 true (s.randCounter + 2)] := by
  unfold webSocketText
  simp [htype, hrc, mqttSubscribe, publishStatus, mqttPublish, sends]

/-- Witness for C1 at a concrete connack frame. -/
theorem connack_ok_witness :
    (webSocketText sampleEnv sampleBoot (.valid sampleConnack)).1.isConnectedToMQTT = true ∧
    sends (webSocketText sampleEnv sampleBoot (.valid sampleConnack)).2 =
      [Envelope.subscribe ("control/" ++ sampleConnack.clientId) 0 sampleBoot.randCounter,
       Envelope.subscribe "control/all" 0 (sampleBoot.randCounter + 1),
       Envelope.publish ("status/" ++ sampleConnack.clientId)
         (serializeStatus sampleConnack.clientId "online" sampleEnv) 0 true
         (sampleBoot.randCounter + 2)] :=
  connack_ok_establishes_and_subscribes_before_publish sampleEnv sampleBoot sampleConnack rfl rfl

/-- C3 (counterexample): the claim says no operation after `setup`
changes `clientId` within a boot session, but handling a successful
`connack` overwrites it with the server-assigned id (main.cpp
line 213): from the boot state with id `esp32-AABBCCDDEEFF`, the sample
connack (assigned id `srv-42`) changes it. -/
theorem clientId_changed_by_connack_cex :
    (webSocketEvent sampleEnv sampleBoot (.text (.valid sampleConnack))).1.clientId ≠
      sampleBoot.clientId := by decide

/-- C3 (amended): `clientId` is unchanged by every WebSocket event
except a successful `connack` (type `"connack"`, return code 0), which
replaces it with the envelope's server-assigned client id. -/
theorem clientId_unchanged_except_connack (env : Env) (s : DeviceState) (ev : WSEvent) :
    (webSocketEvent env s ev).1.clientId =
      (match ev with
       | .text (.valid doc) =>
         if doc.type = "connack" then
           if doc.returnCode = 0 then doc.clientId else s.clientId
         else s.clientId
       | _ => s.clientId) := by
  cases ev with
  | text m =>
    cases m with
    | invalid raw => simp [webSocketEvent, webSocketText]
    | valid doc =>
      show (webSocketText env s (.valid doc)).1.clientId = _
      unfold webSocketText
      by_cases h1 : doc.type = "connack"
      · by_cases h2 : doc.returnCode = 0
        · simp only [h1, h2, if_pos rfl]
          simp only [if_true]
          rw [publishStatus_clientId, mqttSubscribe_clientId, mqttSubscribe_clientId]
        · simp [h1, h2]
      · by_cases h3 : doc.type = "suback"
        · simp [h1, h3]
        · by_cases h4 : doc.type = "message"
          · by_cases h5 : doc.topic.startsWith "control/" <;>
              simp [h1, h3, h4, h5, handleControlMessage_clientId]
          · by_cases h6 : doc.type = "puback" <;> by_cases h7 : doc.type = "pingresp" <;>
              simp [h1, h3, h4, h6, h7]
  | disconnected => simp [webSocketEvent]
  | connected url => simp [webSocketEvent, connectToMQTTBroker]
  | bin len => simp [webSocketEvent]
  | err msg => simp [webSocketEvent]
  | fragment => simp [webSocketEvent]
  | ping => simp [webSocketEvent]
  | pong => simp [webSocketEvent]

/-- C4: when either reading is NaN (`none`), handling a sensor poll on
an established session sends no frame on `temperature/<id>`,
`humidity/<id>` or `sensors/<id>`: the only frame sent is the alert
string on `alerts/<clientId>`. -/
theorem nan_reading_publishes_only_alert (env : Env) (s : DeviceState)
    (hnan : env.humidity = none ∨ env.temperature = none)
    (hc : s.isConnectedToMQTT = true) :
    sends (readAndPublishSensorData env s).2 =
      [Envelope.publish ("alerts/" ++ s.clientId) "Error de lectura del sensor DHT22" 0 false
        s.randCounter] := by
  unfold readAndPublishSensorData
  cases hh : env.humidity with
  | none => simp [hh, mqttPublish, hc, sends]
  | some hum =>
    cases ht : env.temperature with
    | none => simp [hh, ht, mqttPublish, hc, sends]
    | some temp => simp [hh, ht] at hnan

/-- Witness for C4: NaN humidity on an established session. -/
theorem nan_reading_witness :
    sends (readAndPublishSensorData sampleNaNEnv sampleSession).2 =
      [Envelope.publish ("alerts/" ++ sampleSession.clientId)
        "Error de lectura del sensor DHT22" 0 false sampleSession.randCounter] :=
  nan_reading_publishes_only_alert sampleNaNEnv sampleSession (Or.inl rfl) rfl

/-- C5: an inbound text frame that fails the JSON parse is discarded
after a log line: the state (all of `isConnectedToMQTT`, `clientId`,
`lastMsg`, `lastReconnectAttempt`) is unchanged, nothing is sent, and
no restart happens (the handler returns normally). -/
theorem invalid_json_frame_no_effect (env : Env) (s : DeviceState) (raw : String) :
    (webSocketText env s (.invalid raw)).1 = s ∧
    sends (webSocketText env s (.invalid raw)).2 = [] ∧
    restartRequested (webSocketText env s (.invalid raw)).2 = false := by
  simp [webSocketText, sends, restartRequested]

/-- C6: a `set_interval` control command never changes the device
state, sends nothing, and never restarts the device, for any requested
value; the publish interval the loop compares against is the `const`
`interval`, which no code path writes. -/
theorem set_interval_no_effect (env : Env) (s : DeviceState) (v : Int) (raw : String) :
    (handleControlMessage env s (.parsed "set_interval" v raw)).1 = s ∧
    sends (handleControlMessage env s (.parsed "set_interval" v raw)).2 = [] ∧
    restartRequested (handleControlMessage env s (.parsed "set_interval" v raw)).2 = false := by
  unfold handleControlMessage
  by_cases h : 1000 ≤ v ∧ v ≤ 300000 <;>
    simp [h, sends, restartRequested, ControlPayload.raw]

/-- C7: the acceptance log line for `set_interval` is emitted exactly
for requested values in the inclusive range [1000, 300000]; outside it
the command produces only the receive echo, with no acceptance
confirmation. -/
theorem set_interval_acceptance_log_iff_in_range (env : Env) (s : DeviceState) (v : Int)
    (raw : String) :
    (¬(1000 ≤ v ∧ v ≤ 300000) →
      handleControlMessage env s (.parsed "set_interval" v raw) =
        (s, [.log ("🎛️ Comando recibido: " ++ raw)])) ∧
    ((1000 ≤ v ∧ v ≤ 300000) →
      handleControlMessage env s (.parsed "set_interval" v raw) =
        (s, [.log ("🎛️ Comando recibido: " ++ raw),
             .log ("ℹ️ Intervalo solicitado: " ++ String.mk (intStrChars v) ++
               " ms (requiere reinicio)")])) := by
  unfold handleControlMessage
  by_cases h : 1000 ≤ v ∧ v ≤ 300000 <;> simp [h, ControlPayload.raw]

/-- Witness for C7: the out-of-range value 500 draws no acceptance
line, the in-range value 2000 draws one. -/
theorem set_interval_acceptance_witness :
    handleControlMessage sampleEnv sampleSession (.parsed "set_interval" 500 "x") =
      (sampleSession, [.log ("🎛️ Comando recibido: " ++ "x")]) ∧
    handleControlMessage sampleEnv sampleSession (.parsed "set_interval" 2000 "x") =
      (sampleSession, [.log ("🎛️ Comando recibido: " ++ "x"),
        .log ("ℹ️ Intervalo solicitado: " ++ String.mk (intStrChars 2000) ++
          " ms (requiere reinicio)")]) :=
  ⟨(set_interval_acceptance_log_iff_in_range sampleEnv sampleSession 500 "x").1 (by decide),
   (set_interval_acceptance_log_iff_in_range sampleEnv sampleSession 2000 "x").2 (by decide)⟩

/-- C10: while the session flag is false, `mqttPublish` and
`mqttSubscribe` only log a refusal — no frame is sent and the state is
unchanged; in particular the sensor-read-failure alert and every
threshold alert are dropped while disconnected. -/
theorem disconnected_publish_subscribe_noop (s : DeviceState)
    (h : s.isConnectedToMQTT = false) :
    (∀ topic payload retain, mqttPublish s topic payload retain =
      (s, [.log "❌ No conectado a MQTT, no se puede publicar"])) ∧
    (∀ topic, mqttSubscribe s topic =
      (s, [.log "❌ No conectado a MQTT, no se puede suscribir"])) ∧
    (∀ env : Env, env.humidity = none →
      sends (readAndPublishSensorData env s).2 = [] ∧
      (readAndPublishSensorData env s).1 = s) ∧
    (∀ t hum : ℚ, sends (checkThresholds t hum s).2 = [] ∧
      (checkThresholds t hum s).1 = s) := by
  refine ⟨fun topic payload retain => ?_, fun topic => ?_, fun env hnan => ?_,
    fun t hum => ?_⟩
  · simp [mqttPublish, h]
  · simp [mqttSubscribe, h]
  · unfold readAndPublishSensorData
    simp [hnan, mqttPublish, h, sends]
  · unfold checkThresholds
    by_cases hl : (alertMessageOf t hum).length > 0 <;>
      simp [hl, mqttPublish, h, sends]

/-- Witness for C10 at the boot state (flag false), NaN environment and
an out-of-band threshold pair. -/
theorem disconnected_noop_witness :
    mqttPublish sampleBoot "alerts/x" "m" false =
      (sampleBoot, [.log "❌ No conectado a MQTT, no se puede publicar"]) ∧
    mqttSubscribe sampleBoot "control/all" =
      (sampleBoot, [.log "❌ No conectado a MQTT, no se puede suscribir"]) ∧
    sends (readAndPublishSensorData sampleNaNEnv sampleBoot).2 = [] ∧
    sends (checkThresholds 99 99 sampleBoot).2 = [] :=
  ⟨(disconnected_publish_subscribe_noop sampleBoot rfl).1 "alerts/x" "m" false,
   (disconnected_publish_subscribe_noop sampleBoot rfl).2.1 "control/all",
   ((disconnected_publish_subscribe_noop sampleBoot rfl).2.2.1 sampleNaNEnv rfl).1,
   ((disconnected_publish_subscribe_noop sampleBoot rfl).2.2.2 99 99).1⟩

/-- C2: `checkThresholds` on an established session sends nothing when
both readings are strictly inside their bounds; on any breach it sends
the alert string on `alerts/<clientId>` and then on the shared
`alerts/temperature`, and that string carries the high-temperature,
low-temperature, high-humidity or low-humidity wording exactly as the
corresponding bound (30 / 10 / 80 / 30) is crossed. -/
theorem checkThresholds_alerts (t h : ℚ) (s : DeviceState)
    (hc : s.isConnectedToMQTT = true) :
    (10 < t → t < 30 → 30 < h → h < 80 → checkThresholds t h s = (s, [])) ∧
    ((30 < t ∨ t < 10 ∨ 80 < h ∨ h < 30) →
      sends (checkThresholds t h s).2 =
        [Envelope.publish ("alerts/" ++ s.clientId) (alertMessageOf t h) 0 false s.randCounter,
         Envelope.publish "alerts/temperature" (alertMessageOf t h) 0 false
           (s.randCounter + 1)]) ∧
    (30 < t → strHasSub (alertMessageOf t h) "Temperatura alta") ∧
    (t < 10 → strHasSub (alertMessageOf t h) "Temperatura baja") ∧
    (80 < h → strHasSub (alertMessageOf t h) "Humedad alta") ∧
    (h < 30 → strHasSub (alertMessageOf t h) "Humedad baja") := by
  refine ⟨fun h1 h2 h3 h4 => ?_, fun hb => ?_, tempHigh_hasSub t h, tempLow_hasSub t h,
    humHigh_hasSub t h, humLow_hasSub t h⟩
  · unfold checkThresholds
    dsimp only
    rw [alertMessageOf_inside t h h1 h2 h3 h4]
    simp
  · have hlen := alertMessageOf_len_pos t h hb
    unfold checkThresholds
    dsimp only
    rw [if_pos hlen]
    simp [mqttPublish, hc, sends]

/-- Witness for C2: 35 °C breaches the high bound (alerts published on
both topics, message carries the high-temperature wording), while
(25 °C, 50 %) is silent. -/
theorem checkThresholds_alerts_witness :
    sends (checkThresholds 35 50 sampleSession).2 =
      [Envelope.publish ("alerts/" ++ sampleSession.clientId) (alertMessageOf 35 50) 0 false
        sampleSession.randCounter,
       Envelope.publish "alerts/temperature" (alertMessageOf 35 50) 0 false
         (sampleSession.randCounter + 1)] ∧
    strHasSub (alertMessageOf 35 50) "Temperatura alta" ∧
    checkThresholds 25 50 sampleSession = (sampleSession, []) :=
  ⟨(checkThresholds_alerts 35 50 sampleSession rfl).2.1 (Or.inl (by norm_num)),
   (checkThresholds_alerts 35 50 sampleSession rfl).2.2.1 (by norm_num),
   (checkThresholds_alerts 25 50 sampleSession rfl).1 (by norm_num) (by norm_num)
     (by norm_num) (by norm_num)⟩

/-- C9: `generateClientId` is a pure function of the fixed MAC, so
repeated calls in one boot session agree; the result is `"esp32-"`
followed by the twelve uppercase hex digits of the six MAC bytes
(18 characters in all). -/
theorem generateClientId_form (mac : Fin 6 → Fin 256) :
    (∀ mac2 : Fin 6 → Fin 256, (∀ i, mac2 i = mac i) →
      generateClientId mac2 = generateClientId mac) ∧
    (generateClientId mac).data =
      "esp32-".data ++ (List.ofFn fun i : Fin 6 => byteHexChars (mac i)).flatten ∧
    (generateClientId mac).length = 18 ∧
    ∀ c ∈ (generateClientId mac).data.drop 6, isUpperHexDigit c = true := by
  have hdata : (generateClientId mac).data =
      "esp32-".data ++ (List.ofFn fun i : Fin 6 => byteHexChars (mac i)).flatten := by
    rw [generateClientId, String.data_append]
  have hflat : (List.ofFn fun i : Fin 6 => byteHexChars (mac i)).flatten.length = 12 := by
    simp [List.ofFn_succ, byteHexChars]
  refine ⟨fun mac2 hm => by rw [funext hm], hdata, ?_, ?_⟩
  · show (generateClientId mac).data.length = 18
    rw [hdata, List.length_append, hflat]
    rfl
  · intro c hc
    rw [hdata] at hc
    have h6 : ("esp32-".data).length = 6 := rfl
    rw [List.drop_left' h6] at hc
    obtain ⟨l, hl, hcl⟩ := List.mem_flatten.mp hc
    obtain ⟨i, hi⟩ := (List.mem_ofFn _ _).mp hl
    rw [← hi] at hcl
    have hb : ∀ d, d < 16 → isUpperHexDigit (hexDigitChar d) = true := by
      intro d hd
      interval_cases d <;> decide
    simp only [byteHexChars, List.mem_cons, List.not_mem_nil, or_false] at hcl
    rcases hcl with h1 | h1 <;> subst h1 <;> exact hb _ (Nat.mod_lt _ (by norm_num))

theorem data_mk (l : List Char) : (String.mk l).data = l := rfl

theorem digitChar_isDigit (d : Nat) (hd : d < 10) : (digitChar d).isDigit = true := by
  interval_cases d <;> decide

theorem digitChar_toNat (d : Nat) (hd : d < 10) : (digitChar d).toNat = 48 + d := by
  interval_cases d <;> decide

theorem natStrChars_all_digits (n : Nat) : ∀ c ∈ natStrChars n, c.isDigit = true := by
  intro c hc
  unfold natStrChars at hc
  by_cases h0 : n = 0
  · rw [if_pos h0] at hc
    simp only [List.mem_singleton] at hc
    subst hc
    decide
  · rw [if_neg h0, List.mem_reverse] at hc
    obtain ⟨d, hd, rfl⟩ := List.mem_map.mp hc
    refine digitChar_isDigit d ?_
    rw [natDigits_eq_digits] at hd
    exact Nat.digits_lt_base (by norm_num) hd

theorem natStrChars_ne_nil (n : Nat) : natStrChars n ≠ [] := by
  unfold natStrChars
  by_cases h0 : n = 0
  · rw [if_pos h0]
    simp
  · rw [if_neg h0]
    simp only [ne_eq, List.reverse_eq_nil_iff, List.map_eq_nil_iff, natDigits_eq_digits]
    exact Nat.digits_ne_nil_iff_ne_zero.mpr h0

theorem natStrChars_head (n : Nat) :
    ∃ c tl, natStrChars n = c :: tl ∧ c.isDigit = true := by
  cases hx : natStrChars n with
  | nil => exact absurd hx (natStrChars_ne_nil n)
  | cons c tl =>
    refine ⟨c, tl, rfl, natStrChars_all_digits n c ?_⟩
    rw [hx]
    exact List.mem_cons_self c tl

theorem dropLit_append (lit rest : List Char) : dropLit lit (lit ++ rest) = some rest := by
  induction lit with
  | nil => rfl
  | cons c cs ih => simp [dropLit, ih]

theorem takeUntil_append (stop : Char) (xs rest : List Char) (h : ∀ c ∈ xs, c ≠ stop) :
    takeUntil stop (xs ++ stop :: rest) = some (xs, rest) := by
  induction xs with
  | nil => simp [takeUntil]
  | cons c cs ih =>
    have hc : c ≠ stop := h c (List.mem_cons_self c cs)
    simp [takeUntil, hc, ih fun d hd => h d (List.mem_cons_of_mem c hd)]

theorem takeDigits_append (xs : List Char) (y : Char) (rest : List Char)
    (hx : ∀ c ∈ xs, c.isDigit = true) (hy : y.isDigit = false) :
    takeDigits (xs ++ y :: rest) = (xs, y :: rest) := by
  induction xs with
  | nil => simp [takeDigits, hy]
  | cons c cs ih =>
    simp [takeDigits, hx c (List.mem_cons_self c cs),
      ih fun d hd => hx d (List.mem_cons_of_mem c hd)]

theorem takeDigits_all (xs : List Char) (hx : ∀ c ∈ xs, c.isDigit = true) :
    takeDigits xs = (xs, []) := by
  induction xs with
  | nil => rfl
  | cons c cs ih =>
    simp [takeDigits, hx c (List.mem_cons_self c cs),
      ih fun d hd => hx d (List.mem_cons_of_mem c hd)]

theorem digitsVal_append_single (xs : List Char) (c : Char) :
    digitsVal (xs ++ [c]) = digitsVal xs * 10 + (c.toNat - 48) := by
  unfold digitsVal
  rw [List.foldl_append]
  rfl

theorem digitsVal_rev_map (ds : List Nat) (h : ∀ d ∈ ds, d < 10) :
    digitsVal ((ds.map digitChar).reverse) = Nat.ofDigits 10 ds := by
  induction ds with
  | nil => rfl
  | cons d tl ih =>
    rw [List.map_cons, List.reverse_cons, digitsVal_append_single,
      ih fun x hx => h x (List.mem_cons_of_mem d hx),
      digitChar_toNat d (h d (List.mem_cons_self d tl)), Nat.ofDigits_cons]
    omega

theorem digitsVal_natStrChars (n : Nat) : digitsVal (natStrChars n) = n := by
  unfold natStrChars
  by_cases h0 : n = 0
  · rw [if_pos h0, h0]
    decide
  · rw [if_neg h0]
    have hlt : ∀ d ∈ natDigits n, d < 10 := by
      intro d hd
      rw [natDigits_eq_digits] at hd
      exact Nat.digits_lt_base (by norm_num) hd
    rw [digitsVal_rev_map _ hlt, natDigits_eq_digits, Nat.ofDigits_digits]

theorem parseUnsigned_nat (n : Nat) : parseUnsigned (natStrChars n) = some (n : ℚ) := by
  unfold parseUnsigned
  rw [takeDigits_all _ (natStrChars_all_digits n)]
  dsimp only
  rw [if_neg (natStrChars_ne_nil n), digitsVal_natStrChars]

theorem parseUnsigned_frac (n d : Nat) (hd : d < 10) :
    parseUnsigned (natStrChars n ++ [Char.ofNat 46, digitChar d]) =
      some ((n : ℚ) + (d : ℚ) / 10) := by
  unfold parseUnsigned
  rw [show natStrChars n ++ [Char.ofNat 46, digitChar d] =
        natStrChars n ++ Char.ofNat 46 :: [digitChar d] from rfl,
    takeDigits_append _ _ _ (natStrChars_all_digits n) (by decide)]
  dsimp only
  rw [if_neg (natStrChars_ne_nil n), if_pos rfl,
    if_pos ⟨by simp, by simp [digitChar_isDigit d hd]⟩, digitsVal_natStrChars]
  have hdv : digitsVal [digitChar d] = d := by
    unfold digitsVal
    simp only [List.foldl_cons, List.foldl_nil, Nat.zero_mul, Nat.zero_add]
    rw [digitChar_toNat d hd]
    omega
  rw [hdv]
  norm_num

theorem parseNumber_cons (c : Char) (tl : List Char) :
    parseNumber (c :: tl) =
      if c = Char.ofNat 45 then Option.map Neg.neg (parseUnsigned tl)
      else parseUnsigned (c :: tl) := rfl

theorem parseNumber_of_digit_head (cs : List Char)
    (hcs : ∃ c tl, cs = c :: tl ∧ c.isDigit = true) :
    parseNumber cs = parseUnsigned cs := by
  obtain ⟨c, tl, rfl, hc⟩ := hcs
  rw [parseNumber_cons, if_neg fun heq => absurd (heq ▸ hc) (by decide)]

theorem parseUnsigned_tenthBody (a : Nat) :
    parseUnsigned (if a % 10 = 0 then natStrChars (a / 10)
      else natStrChars (a / 10) ++ [Char.ofNat 46] ++ [digitChar (a % 10)]) =
      some ((a : ℚ) / 10) := by
  by_cases hm : a % 10 = 0
  · rw [if_pos hm, parseUnsigned_nat]
    congr 1
    rw [Nat.cast_div (Nat.dvd_of_mod_eq_zero hm) (by norm_num)]
    norm_num
  · rw [if_neg hm,
      show natStrChars (a / 10) ++ [Char.ofNat 46] ++ [digitChar (a % 10)] =
        natStrChars (a / 10) ++ [Char.ofNat 46, digitChar (a % 10)] by simp,
      parseUnsigned_frac _ _ (Nat.mod_lt a (by norm_num))]
    congr 1
    have hmod : 10 * (a / 10) + a % 10 = a := Nat.div_add_mod a 10
    have hcast : ((10 * (a / 10) + a % 10 : ℕ) : ℚ) = (a : ℚ) := by rw [hmod]
    push_cast at hcast
    field_simp
    linarith

theorem tenthBody_digit_head (a : Nat) :
    ∃ c tl, (if a % 10 = 0 then natStrChars (a / 10)
      else natStrChars (a / 10) ++ [Char.ofNat 46] ++ [digitChar (a % 10)]) = c :: tl ∧
      c.isDigit = true := by
  obtain ⟨c, tl, hctl, hc⟩ := natStrChars_head (a / 10)
  by_cases hm : a % 10 = 0
  · exact ⟨c, tl, by rw [if_pos hm, hctl], hc⟩
  · exact ⟨c, tl ++ [Char.ofNat 46] ++ [digitChar (a % 10)], by
      rw [if_neg hm, hctl]
      simp, hc⟩

theorem parseNumber_fmtTenth (k : Int) :
    parseNumber (fmtTenthChars k) = some ((k : ℚ) / 10) := by
  unfold fmtTenthChars
  dsimp only
  by_cases hk : k < 0
  · rw [if_pos hk]
    have hcons : ([Char.ofNat 45] ++ (if k.natAbs % 10 = 0 then natStrChars (k.natAbs / 10)
        else natStrChars (k.natAbs / 10) ++ [Char.ofNat 46] ++ [digitChar (k.natAbs % 10)])) =
        Char.ofNat 45 :: (if k.natAbs % 10 = 0 then natStrChars (k.natAbs / 10)
        else natStrChars (k.natAbs / 10) ++ [Char.ofNat 46] ++ [digitChar (k.natAbs % 10)]) := by
      simp
    rw [hcons, parseNumber_cons, if_pos rfl, parseUnsigned_tenthBody]
    rw [Int.cast_natAbs, abs_of_neg hk]
    push_cast
    simp [neg_div]
  · rw [if_neg hk, List.nil_append,
      parseNumber_of_digit_head _ (tenthBody_digit_head k.natAbs),
      parseUnsigned_tenthBody]
    rw [Int.cast_natAbs, abs_of_nonneg (not_lt.mp hk)]

theorem fmtTenthChars_no_comma (k : Int) : ∀ c ∈ fmtTenthChars k, c ≠ Char.ofNat 44 := by
  intro c hc heq
  subst heq
  unfold fmtTenthChars at hc
  dsimp only at hc
  have hd : ∀ m : Nat, Char.ofNat 44 ∈ natStrChars m → False := fun m hm =>
    absurd (natStrChars_all_digits m _ hm) (by decide)
  rcases List.mem_append.mp hc with h1 | h1
  · by_cases hk : k < 0
    · rw [if_pos hk] at h1
      simp only [List.mem_singleton] at h1
      exact absurd h1 (by decide)
    · rw [if_neg hk] at h1
      exact absurd h1 (List.not_mem_nil _)
  · by_cases hm : k.natAbs % 10 = 0
    · rw [if_pos hm] at h1
      exact hd _ h1
    · rw [if_neg hm] at h1
      rcases List.mem_append.mp h1 with h2 | h2
      · rcases List.mem_append.mp h2 with h3 | h3
        · exact hd _ h3
        · simp only [List.mem_singleton] at h3
          exact absurd h3 (by decide)
      · simp only [List.mem_singleton] at h2
        have := digitChar_isDigit (k.natAbs % 10) (Nat.mod_lt _ (by norm_num))
        rw [← h2] at this
        exact absurd this (by decide)

theorem fmtQ_round1 (x : ℚ) : fmtQ (round1 x) = String.mk (fmtTenthChars (cround (x * 10))) := by
  unfold fmtQ round1
  congr 1
  rw [div_mul_cancel₀ _ (by norm_num : (10 : ℚ) ≠ 0)]
  exact congrArg fmtTenthChars (Rat.num_intCast _)

/-- C8: the record published on `sensors/<clientId>` round-trips: for
any readings, serializing the one-decimal-rounded pair and reading the
`temperature` and `humidity` fields back out of the payload returns
exactly `round1 t` and `round1 h` — `round(x * 10) / 10`, the input
rounded to one decimal place.  (Holds for every `ℚ` input, hence in
particular on the DHT22 instrument range; the device id may not contain
a quote character, which the hex ids of `generateClientId` never do.) -/
theorem sensor_record_roundtrip (cid : String) (t h : ℚ) (ts : Nat) (rssi : Int)
    (heap : Nat) (hq : ∀ c ∈ cid.data, c ≠ Char.ofNat 34) :
    parsePayloadTempHum (serializeSensorData cid (round1 t) (round1 h) ts rssi heap) =
      some (round1 t, round1 h) := by
  have hdata : (serializeSensorData cid (round1 t) (round1 h) ts rssi heap).data =
      ("\x7b\"sensorId\":\"" : String).data ++ (cid.data ++ (Char.ofNat 34 ::
        ((",\"temperature\":" : String).data ++ (fmtTenthChars (cround (t * 10)) ++
          (Char.ofNat 44 :: (("\"humidity\":" : String).data ++
            (fmtTenthChars (cround (h * 10)) ++ (Char.ofNat 44 ::
              (("\"unit_temp\":\"celsius\",\"unit_humidity\":\"percent\",\"timestamp\":" :
                  String).data ++ (natStrChars ts ++ ((",\"wifi_rssi\":" : String).data ++
                (intStrChars rssi ++ ((",\"heap_free\":" : String).data ++
                  (natStrChars heap ++ ("\x7d" : String).data)))))))))))))) := by
    unfold serializeSensorData
    rw [fmtQ_round1 t, fmtQ_round1 h]
    have e2 : ("\",\"temperature\":" : String).data =
        Char.ofNat 34 :: (",\"temperature\":" : String).data := by decide
    have e3 : (",\"humidity\":" : String).data =
        Char.ofNat 44 :: ("\"humidity\":" : String).data := by decide
    have e4 : (",\"unit_temp\":\"celsius\",\"unit_humidity\":\"percent\",\"timestamp\":" :
        String).data = Char.ofNat 44 ::
        ("\"unit_temp\":\"celsius\",\"unit_humidity\":\"percent\",\"timestamp\":" :
          String).data := by decide
    simp only [String.data_append, data_mk, e2, e3, e4, List.append_assoc, List.cons_append]
  unfold parsePayloadTempHum
  rw [hdata, dropLit_append]
  simp only [Option.bind_eq_bind, Option.some_bind]
  rw [takeUntil_append _ _ _ hq]
  simp only [Option.bind_eq_bind, Option.some_bind]
  rw [dropLit_append]
  simp only [Option.bind_eq_bind, Option.some_bind]
  rw [takeUntil_append _ _ _ (fmtTenthChars_no_comma _)]
  simp only [Option.bind_eq_bind, Option.some_bind]
  rw [parseNumber_fmtTenth]
  simp only [Option.bind_eq_bind, Option.some_bind]
  rw [dropLit_append]
  simp only [Option.bind_eq_bind, Option.some_bind]
  rw [takeUntil_append _ _ _ (fmtTenthChars_no_comma _)]
  simp only [Option.bind_eq_bind, Option.some_bind]
  rw [parseNumber_fmtTenth]
  simp only [Option.bind_eq_bind, Option.some_bind]
  rfl

/-- Witness for C8: readings 10.94 °C and 50 % round-trip to
(10.9, 50). -/
theorem sensor_record_roundtrip_witness :
    parsePayloadTempHum
        (serializeSensorData "dev" (round1 (547/50 : ℚ)) (round1 (50 : ℚ)) 12 (-55) 7) =
      some (round1 (547/50 : ℚ), round1 (50 : ℚ)) :=
  sensor_record_roundtrip "dev" (547/50) 50 12 (-55) 7 (by decide)

/-- Witness for C9 at a concrete MAC: repeated generation agrees, and
the seventh character of the id is an uppercase hex digit. -/
theorem generateClientId_form_witness :
    generateClientId sampleMac = generateClientId sampleMac ∧
    isUpperHexDigit (Char.ofNat 65) = true :=
  ⟨(generateClientId_form sampleMac).1 sampleMac (fun _ => rfl),
   (generateClientId_form sampleMac).2.2.2 (Char.ofNat 65) (by decide)⟩

end Firmware
